import Mathlib

/-!
Verification development for the citymood generation-and-caching pipeline.

The TypeScript source is shallowly embedded: strings are lists of characters,
database tables are lists of records, timestamps are natural numbers
(milliseconds), and external collaborators (weather provider, image/video
generators, transcoder plus object storage) are oracle parameters of type
`Except`.  Datastore failures are injected through an explicit
`Option`-of-error-message parameter on each operation that talks to the
datastore, mirroring the `{ data, error }` results of the supabase client;
`none` is the honest datastore.
-/

deriving instance DecidableEq for Except

namespace CityMood

/-- JavaScript strings are modelled as lists of characters. -/
abbrev Str := List Char

/-- Turn a Lean string literal into the model's string type. -/
def str (s : String) : Str := s.data

/-- `String.prototype.toLowerCase` restricted to per-character lowering
(the repository only handles ASCII city names and error messages). -/
def lowerStr (s : Str) : Str := s.map Char.toLower

/-- `String.prototype.trim`: drop leading and trailing whitespace. -/
def trimStr (s : Str) : Str :=
  ((s.dropWhile Char.isWhitespace).reverse.dropWhile Char.isWhitespace).reverse

/-- Helper for `collapseWs`: the flag records whether the previous
character was whitespace (so the run has already emitted its space). -/
def collapseWsAux : Bool → Str → Str
  | _, [] => []
  | prevWs, c :: cs =>
    if c.isWhitespace then
      if prevWs then collapseWsAux true cs else ' ' :: collapseWsAux true cs
    else c :: collapseWsAux false cs

/-- `replace(/\s+/g, " ")`: collapse every whitespace run to one space. -/
def collapseWs (s : Str) : Str := collapseWsAux false s

/-- `normalizeCity` from `lib/weather.ts`:
`city.toLowerCase().trim().replace(/\s+/g, " ")`. -/
def normalizeCity (city : Str) : Str := collapseWs (trimStr (lowerStr city))

/-- Whether `s` starts with `pat` (helper for the substring test below). -/
def startsWith : Str → Str → Bool
  | _, [] => true
  | [], _ :: _ => false
  | c :: cs, p :: ps => c == p && startsWith cs ps

/-- `String.prototype.includes`: substring containment. -/
def includesStr : Str → Str → Bool
  | [], needle => needle == []
  | c :: cs, needle => startsWith (c :: cs) needle || includesStr cs needle

/-- JavaScript `s || null` on a string: the empty string is falsy. -/
def strOrNone (s : Str) : Option Str := if s = [] then none else some s

/-- JavaScript `x || null` / `x || undefined` on an optional string. -/
def jsString : Option Str → Option Str
  | some [] => none
  | x => x

/-- Postgres `ILIKE` with a pattern free of wildcard characters:
case-insensitive string equality (the repository's patterns are
normalized city names, which contain no `%` or `_` wildcards). -/
def ilikeEq (stored pat : Str) : Bool := lowerStr stored == lowerStr pat

/-! ## Data model (`lib/jobs.ts`, `lib/supabase.ts`, `lib/weather-categories.ts`) -/

/-- Job status (`JobStatus` in `lib/jobs.ts`). -/
inductive JobStatus
  | pending | processing | completed | failed
deriving DecidableEq, Repr

/-- Job processing stages (`JobStage` in `lib/jobs.ts`). -/
inductive JobStage
  | fetching_weather | generating_image | generating_video | processing_video
deriving DecidableEq, Repr

/-- Job type (`JobType` in `lib/jobs.ts`). -/
inductive JobType
  | image | video
deriving DecidableEq, Repr

/-- Weather categories (`WeatherCategory` in `lib/weather-categories.ts`). -/
inductive WeatherCategory
  | sunny | cloudy | foggy | drizzle | rainy | snowy | sleet | stormy
deriving DecidableEq, Repr

/-- Time of day (`TimeOfDay` in `lib/supabase.ts`). -/
inductive TimeOfDay
  | day | night
deriving DecidableEq, Repr

/-- Animation status of a media cache entry (`AnimationStatus` in
`lib/supabase.ts`). -/
inductive AnimationStatus
  | none | pending | processing | completed | failed
deriving DecidableEq, Repr

/-- The raw `weather_data` JSON stored in the weather cache.  JavaScript
numbers are modelled as integers: no claim depends on fractional values. -/
structure WeatherRaw where
  condition_code : Nat
  condition_text : Str
  temp_c : Int
  temp_f : Int
  humidity : Int
  wind_kph : Int
  is_day : Nat
deriving DecidableEq, Repr

/-- `WeatherData` from `lib/weather.ts`. -/
structure WeatherData where
  category : WeatherCategory
  conditionCode : Nat
  conditionText : Str
  tempC : Int
  tempF : Int
  humidity : Int
  windKph : Int
  isDay : Bool
  cached : Bool
  locationName : Option Str := Option.none
  country : Option Str := Option.none
deriving DecidableEq, Repr

/-- A `weather_cache` row (`WeatherCache` in `lib/supabase.ts`); the
surrogate `id` and `created_at` bookkeeping columns are not modelled.
`fetched_at` is milliseconds since the epoch. -/
structure WeatherCache where
  city : Str
  weather_category : WeatherCategory
  weather_data : WeatherRaw
  fetched_at : Nat
deriving DecidableEq, Repr

/-- A `city_images` row (`CityImage` in `lib/supabase.ts`); the surrogate
`id`, `prompt_used` and `created_at` columns are not modelled.
`animation_status` is optional because the code reads it with `|| "none"`. -/
structure CityImage where
  city : Str
  weather_category : WeatherCategory
  time_of_day : TimeOfDay
  image_url : Str
  animation_url : Option Str := Option.none
  video_url : Option Str := Option.none
  animation_status : Option AnimationStatus := Option.none
deriving DecidableEq, Repr

/-- A `video_jobs` row (`VideoJob` in `lib/jobs.ts`).  Timestamps are
milliseconds since the epoch. -/
structure VideoJob where
  id : Str
  api_key_hash : Str
  status : JobStatus
  stage : Option JobStage
  job_type : JobType
  city : Str
  country : Option Str
  weather_data : Option WeatherData
  image_url : Option Str
  video_url : Option Str
  error_message : Option Str
  cached : Bool
  created_at : Nat
  updated_at : Nat
  completed_at : Option Nat
deriving DecidableEq, Repr

/-- `STAGE_INFO` from `lib/jobs.ts`: `(step, total, message)` per stage. -/
def STAGE_INFO : JobStage → Nat × Nat × Str
  | .fetching_weather => (1, 4, str "Fetching weather data...")
  | .generating_image => (2, 4, str "Generating city image...")
  | .generating_video => (3, 4, str "Generating video animation...")
  | .processing_video => (4, 4, str "Processing video (adding loop)...")

/-- `getWeatherCategory` from `lib/weather-categories.ts`: map WeatherAPI
condition codes to categories, falling back to `cloudy`. -/
def getWeatherCategory (conditionCode : Nat) : WeatherCategory :=
  match conditionCode with
  | 1000 => .sunny
  | 1003 | 1006 | 1009 => .cloudy
  | 1030 | 1135 | 1147 => .foggy
  | 1150 | 1153 | 1168 | 1171 => .drizzle
  | 1063 | 1180 | 1183 | 1186 | 1189 | 1192 | 1195
  | 1198 | 1201 | 1240 | 1243 | 1246 => .rainy
  | 1066 | 1114 | 1117 | 1210 | 1213 | 1216 | 1219
  | 1222 | 1225 | 1255 | 1258 => .snowy
  | 1069 | 1072 | 1204 | 1207 | 1237 | 1249 | 1252 | 1261 | 1264 => .sleet
  | 1087 | 1273 | 1276 | 1279 | 1282 => .stormy
  | _ => .cloudy

/-! ## Job Ledger (`lib/jobs.ts`)

The `video_jobs` table is a list of rows.  Each operation that talks to the
datastore takes a `dbFail : Option Str` oracle: `some msg` injects a
datastore failure with that message (any supabase error other than the
`PGRST116` no-rows signal, which is modelled structurally), `none` is the
honest datastore.  `updated_at`/`created_at` writes take the current time
as a parameter in place of `new Date()`. -/

/-- `hashApiKey`: SHA-256 is modelled as an injective tagging function
(hash collisions are out of scope). -/
def hashApiKey (apiKey : Str) : Str := '#' :: apiKey

/-- Row lookup by primary key (`.eq("id", jobId).single()` on a table whose
ids are unique). -/
def findJob (jobs : List VideoJob) (jobId : Str) : Option VideoJob :=
  jobs.find? (fun j => j.id == jobId)

/-- `.order("created_at", { ascending: false }).limit(1)`: the row with the
greatest `created_at`.  The database leaves the order of ties unspecified;
the model resolves them deterministically towards the head of the list. -/
def latestByCreated : List VideoJob → Option VideoJob
  | [] => Option.none
  | j :: rest =>
    match latestByCreated rest with
    | Option.none => some j
    | some a => if a.created_at ≤ j.created_at then some j else some a

/-- `.in("status", ["pending", "processing"])`. -/
def isActiveStatus (s : JobStatus) : Bool := s == .pending || s == .processing

/-- `.update(...).eq("id", jobId)`: rewrite every row with the given id
(ids are unique in practice); zero matching rows is not an error. -/
def updateJobRow (jobs : List VideoJob) (jobId : Str) (f : VideoJob → VideoJob) :
    List VideoJob :=
  jobs.map fun j => if j.id == jobId then f j else j

/-- The row inserted by `createJob` (status `pending`, the other generated
columns at their database defaults); `country || null` maps the empty
string to null. -/
def applyCreateJob (now : Nat) (jobId : Str) (apiKey : Str) (city : Str)
    (country : Option Str) (jobType : JobType) (jobs : List VideoJob) :
    List VideoJob :=
  jobs ++ [{ id := jobId
             api_key_hash := hashApiKey apiKey
             status := .pending
             stage := Option.none
             job_type := jobType
             city := city
             country := jsString country
             weather_data := Option.none
             image_url := Option.none
             video_url := Option.none
             error_message := Option.none
             cached := false
             created_at := now
             updated_at := now
             completed_at := Option.none }]

/-- `createJob` from `lib/jobs.ts`.  The randomly generated job id is an
oracle parameter. -/
def createJob (dbFail : Option Str) (now : Nat) (jobId : Str) (apiKey : Str)
    (city : Str) (country : Option Str) (jobType : JobType)
    (jobs : List VideoJob) : Except Str (Str × List VideoJob) :=
  match dbFail with
  | some m => .error (str "Failed to create job: " ++ m)
  | Option.none => .ok (jobId, applyCreateJob now jobId apiKey city country jobType jobs)

/-- `getJob` from `lib/jobs.ts`: `PGRST116` (no rows) becomes `none`, any
other datastore error is thrown. -/
def getJob (dbFail : Option Str) (jobs : List VideoJob) (jobId : Str) :
    Except Str (Option VideoJob) :=
  match dbFail with
  | some m => .error (str "Failed to get job: " ++ m)
  | Option.none => .ok (findJob jobs jobId)

/-- The update performed by `startJob`. -/
def applyStartJob (now : Nat) (jobId : Str) (jobs : List VideoJob) : List VideoJob :=
  updateJobRow jobs jobId fun j =>
    { j with status := .processing, stage := some .fetching_weather, updated_at := now }

/-- `startJob` from `lib/jobs.ts`: an unconditional update by id; a missing
row is not an error (the update simply affects zero rows). -/
def startJob (dbFail : Option Str) (now : Nat) (jobId : Str)
    (jobs : List VideoJob) : Except Str (List VideoJob) :=
  match dbFail with
  | some m => .error (str "Failed to start job: " ++ m)
  | Option.none => .ok (applyStartJob now jobId jobs)

/-- The `additionalData` spread of `updateJobStage`: the only call sites
pass `weather_data` and/or `image_url`, so the patch carries those. -/
structure StagePatch where
  weather_data : Option WeatherData := Option.none
  image_url : Option Str := Option.none
deriving DecidableEq, Repr

/-- Merge a `StagePatch` into a row (`{ stage, updated_at, ...additionalData }`). -/
def applyPatch (p : StagePatch) (j : VideoJob) : VideoJob :=
  { j with
    weather_data := match p.weather_data with
      | some w => some w
      | Option.none => j.weather_data
    image_url := match p.image_url with
      | some u => some u
      | Option.none => j.image_url }

/-- The update performed by `updateJobStage`. -/
def applyUpdateJobStage (now : Nat) (jobId : Str) (stage : JobStage)
    (patch : StagePatch) (jobs : List VideoJob) : List VideoJob :=
  updateJobRow jobs jobId fun j =>
    { applyPatch patch j with stage := some stage, updated_at := now }

/-- `updateJobStage` from `lib/jobs.ts`. -/
def updateJobStage (dbFail : Option Str) (now : Nat) (jobId : Str)
    (stage : JobStage) (patch : StagePatch) (jobs : List VideoJob) :
    Except Str (List VideoJob) :=
  match dbFail with
  | some m => .error (str "Failed to update job stage: " ++ m)
  | Option.none => .ok (applyUpdateJobStage now jobId stage patch jobs)

/-- The update performed by `completeJob`: terminal status, stage cleared,
result fields and timestamps written. -/
def applyCompleteJob (now : Nat) (jobId : Str) (videoUrl : Str)
    (weatherData : WeatherData) (imageUrl : Str) (cached : Bool)
    (jobs : List VideoJob) : List VideoJob :=
  updateJobRow jobs jobId fun j =>
    { j with
      status := .completed
      stage := Option.none
      video_url := some videoUrl
      weather_data := some weatherData
      image_url := some imageUrl
      cached := cached
      updated_at := now
      completed_at := some now }

/-- `completeJob` from `lib/jobs.ts`. -/
def completeJob (dbFail : Option Str) (now : Nat) (jobId : Str) (videoUrl : Str)
    (weatherData : WeatherData) (imageUrl : Str) (cached : Bool)
    (jobs : List VideoJob) : Except Str (List VideoJob) :=
  match dbFail with
  | some m => .error (str "Failed to complete job: " ++ m)
  | Option.none => .ok (applyCompleteJob now jobId videoUrl weatherData imageUrl cached jobs)

/-- The update performed by `failJob`: status and error message only — the
`stage` column is left as it was. -/
def applyFailJob (now : Nat) (jobId : Str) (errorMessage : Str)
    (jobs : List VideoJob) : List VideoJob :=
  updateJobRow jobs jobId fun j =>
    { j with status := .failed, error_message := some errorMessage, updated_at := now }

/-- `failJob` from `lib/jobs.ts`. -/
def failJob (dbFail : Option Str) (now : Nat) (jobId : Str) (errorMessage : Str)
    (jobs : List VideoJob) : Except Str (List VideoJob) :=
  match dbFail with
  | some m => .error (str "Failed to fail job: " ++ m)
  | Option.none => .ok (applyFailJob now jobId errorMessage jobs)

/-- `getActiveJobForApiKey` from `lib/jobs.ts`: most recent pending or
processing job for the caller's key hash; `PGRST116` (no rows) becomes
`none`, any other datastore error is thrown.  `data?.id || null` maps an
empty id to null. -/
def getActiveJobForApiKey (dbFail : Option Str) (apiKey : Str)
    (jobs : List VideoJob) : Except Str (Option Str) :=
  match dbFail with
  | some m => .error (str "Failed to check active jobs: " ++ m)
  | Option.none =>
    match latestByCreated (jobs.filter fun j =>
        j.api_key_hash == hashApiKey apiKey && isActiveStatus j.status) with
    | Option.none => .ok Option.none
    | some j => .ok (strOrNone j.id)

/-- `validateJobOwnership` from `lib/jobs.ts`. -/
def validateJobOwnership (job : VideoJob) (apiKey : Str) : Bool :=
  job.api_key_hash == hashApiKey apiKey

/-- `getActiveJobForCity` from `lib/jobs.ts`: most recent pending or
processing job of the given type whose stored city matches the
lowercased-and-trimmed requested city under `ILIKE`.  A datastore error
other than `PGRST116` is logged and treated as "no active job" ("Don't
block on error, just allow new job"). -/
def getActiveJobForCity (dbFail : Option Str) (city : Str) (jobType : JobType)
    (jobs : List VideoJob) : Option Str :=
  let normalizedCity := trimStr (lowerStr city)
  match dbFail with
  | some _ => Option.none
  | Option.none =>
    match latestByCreated (jobs.filter fun j =>
        ilikeEq j.city normalizedCity && j.job_type == jobType
          && isActiveStatus j.status) with
    | Option.none => Option.none
    | some j => strOrNone j.id

/-! ## Weather cache (`lib/weather.ts`)

The weather provider is an oracle `Except Str WeatherAPIResponse`: an error
carries the message the code would extract from a failed fetch
(`error.error?.message || "Failed to fetch weather data"`). -/

/-- The parts of the provider's `WeatherAPIResponse` the code reads. -/
structure WeatherAPIResponse where
  location_name : Str
  location_country : Str
  temp_c : Int
  temp_f : Int
  is_day : Nat
  condition_text : Str
  condition_code : Nat
  humidity : Int
  wind_kph : Int
deriving DecidableEq, Repr

/-- `isCacheFresh`: the entry is less than `CACHE_DURATION_MS` (one hour)
old.  Natural subtraction truncates at zero exactly as the JavaScript
comparison accepts a negative difference. -/
def isCacheFresh (now fetchedAt : Nat) : Bool := now - fetchedAt < 3600000

/-- The snapshot `getWeatherForCity` builds from a fresh cache row
(`cached: true`, no location fields). -/
def weatherFromCacheRow (c : WeatherCache) : WeatherData :=
  { category := c.weather_category
    conditionCode := c.weather_data.condition_code
    conditionText := c.weather_data.condition_text
    tempC := c.weather_data.temp_c
    tempF := c.weather_data.temp_f
    humidity := c.weather_data.humidity
    windKph := c.weather_data.wind_kph
    isDay := c.weather_data.is_day == 1
    cached := true }

/-- `upsert(..., { onConflict: "city" })` on `weather_cache`: replace the
row with the matching city, otherwise insert. -/
def upsertWeatherCache (cache : List WeatherCache) (row : WeatherCache) :
    List WeatherCache :=
  if cache.any (fun r => r.city == row.city) then
    cache.map fun r => if r.city == row.city then row else r
  else cache ++ [row]

/-- Result of `getWeatherForCity`: the snapshot, the weather cache after
the call, and whether the provider was called. -/
structure WeatherFetchResult where
  weather : WeatherData
  cache : List WeatherCache
  providerCalled : Bool
deriving DecidableEq, Repr

/-- The cache-miss branch of `getWeatherForCity`: call the provider,
upsert the cache for the normalized city with a fresh `fetched_at`, and
return the snapshot with `cached: false`. -/
def fetchAndCacheWeather (provider : Except Str WeatherAPIResponse) (now : Nat)
    (cache : List WeatherCache) (normalizedCity : Str) :
    Except Str WeatherFetchResult :=
  match provider with
  | .error m => .error m
  | .ok data =>
    let category := getWeatherCategory data.condition_code
    let raw : WeatherRaw :=
      { condition_code := data.condition_code
        condition_text := data.condition_text
        temp_c := data.temp_c
        temp_f := data.temp_f
        humidity := data.humidity
        wind_kph := data.wind_kph
        is_day := data.is_day }
    let newRow : WeatherCache :=
      { city := normalizedCity
        weather_category := category
        weather_data := raw
        fetched_at := now }
    .ok { weather :=
            { category := category
              conditionCode := data.condition_code
              conditionText := data.condition_text
              tempC := data.temp_c
              tempF := data.temp_f
              humidity := data.humidity
              windKph := data.wind_kph
              isDay := data.is_day == 1
              cached := false
              locationName := some data.location_name
              country := some data.location_country }
          cache := upsertWeatherCache cache newRow
          providerCalled := true }

/-- `getWeatherForCity` from `lib/weather.ts`: serve a fresh cache row
with `cached: true`, otherwise fetch from the provider, upsert the cache
and return `cached: false`. -/
def getWeatherForCity (provider : Except Str WeatherAPIResponse) (now : Nat)
    (cache : List WeatherCache) (city : Str) : Except Str WeatherFetchResult :=
  let normalizedCity := normalizeCity city
  match cache.find? (fun r => r.city == normalizedCity) with
  | some c =>
    if isCacheFresh now c.fetched_at then
      .ok { weather := weatherFromCacheRow c, cache := cache, providerCalled := false }
    else fetchAndCacheWeather provider now cache normalizedCity
  | Option.none => fetchAndCacheWeather provider now cache normalizedCity

/-! ## Media cache (`lib/gemini.ts`)

The image generator, its download and the storage upload are collapsed
into one oracle `Except Str Str` yielding the public URL of the uploaded
image (all three are external collaborators); an error carries the message
of whichever step failed. -/

/-- Image model selection (`lib/models.ts`). -/
inductive ImageModel
  | nanoBanana | seedream | imagen4
deriving DecidableEq, Repr

/-- `getCachedImage`: look up `city_images` by the normalized city,
category and time of day. -/
def getCachedImage (images : List CityImage) (city : Str)
    (weatherCategory : WeatherCategory) (timeOfDay : TimeOfDay) : Option CityImage :=
  images.find? fun r =>
    r.city == normalizeCity city && r.weather_category == weatherCategory
      && r.time_of_day == timeOfDay

/-- The `city_images` upsert of `generateImage`
(`onConflict: "city,weather_category,time_of_day"`): on conflict only the
columns of the payload are rewritten (`image_url`; the unmodelled
`prompt_used`), leaving video and animation columns intact. -/
def upsertCityImage (images : List CityImage) (city : Str)
    (weatherCategory : WeatherCategory) (timeOfDay : TimeOfDay)
    (imageUrl : Str) : List CityImage :=
  if images.any (fun r => r.city == city && r.weather_category == weatherCategory
      && r.time_of_day == timeOfDay) then
    images.map fun r =>
      if r.city == city && r.weather_category == weatherCategory
          && r.time_of_day == timeOfDay then
        { r with image_url := imageUrl }
      else r
  else
    images ++ [{ city := city
                 weather_category := weatherCategory
                 time_of_day := timeOfDay
                 image_url := imageUrl }]

/-- `generateImage` from `lib/gemini.ts`: run the generator oracle, then
record the public URL in `city_images` for the normalized city. -/
def generateImage (gen : Except Str Str) (city : Str)
    (weatherCategory : WeatherCategory) (timeOfDay : TimeOfDay)
    (images : List CityImage) : Except Str (Str × List CityImage) :=
  let normalizedCity := normalizeCity city
  match gen with
  | .error m => .error m
  | .ok publicUrl =>
    .ok (publicUrl, upsertCityImage images normalizedCity weatherCategory timeOfDay publicUrl)

/-- The record `getOrGenerateImage` resolves to. -/
structure ImageResult where
  imageUrl : Str
  cached : Bool
  animationUrl : Option Str := Option.none
  videoUrl : Option Str := Option.none
  animationStatus : AnimationStatus
deriving DecidableEq, Repr

/-- `getOrGenerateImage` from `lib/gemini.ts`: consult the cache only for
the default model; a hit returns the cached URLs with `cached: true`, a
miss generates and records a new image with `cached: false`. -/
def getOrGenerateImage (gen : Except Str Str) (city : Str)
    (weatherCategory : WeatherCategory) (timeOfDay : TimeOfDay)
    (imageModel : ImageModel) (images : List CityImage) :
    Except Str (ImageResult × List CityImage) :=
  match (if imageModel == .nanoBanana
         then getCachedImage images city weatherCategory timeOfDay
         else Option.none) with
  | some c =>
    .ok ({ imageUrl := c.image_url
           cached := true
           animationUrl := c.animation_url
           videoUrl := c.video_url
           animationStatus := c.animation_status.getD .none }, images)
  | Option.none =>
    match generateImage gen city weatherCategory timeOfDay images with
    | .error m => .error m
    | .ok (url, images') =>
      .ok ({ imageUrl := url, cached := false, animationStatus := .none }, images')

/-- `updateAnimationStatus` from `lib/gemini.ts`: update the animation
columns of the matching `city_images` row; the URL columns are written
only when a (truthy) value is supplied. -/
def updateAnimationStatus (images : List CityImage) (city : Str)
    (weatherCategory : WeatherCategory) (timeOfDay : TimeOfDay)
    (status : AnimationStatus) (animationUrl videoUrl : Option Str) :
    List CityImage :=
  let normalizedCity := normalizeCity city
  images.map fun r =>
    if r.city == normalizedCity && r.weather_category == weatherCategory
        && r.time_of_day == timeOfDay then
      { r with
        animation_status := some status
        animation_url := match jsString animationUrl with
          | some u => some u
          | Option.none => r.animation_url
        video_url := match jsString videoUrl with
          | some u => some u
          | Option.none => r.video_url }
    else r

/-! ## Pipeline steps and workflow (`workflows/steps/*`, `city-video-workflow.ts`)

A step failure is a `WorkflowError`; `fatal := true` models throwing the
workflow framework's `FatalError` (never retried), `fatal := false` a
plain rethrown error.  The workflow runs with the honest datastore: its
steps call the `apply*` updates directly. -/

/-- A step error with its Fatal/Transient classification. -/
structure WorkflowError where
  fatal : Bool
  message : Str
deriving DecidableEq, Repr

/-- The location string built by `fetchWeatherStep`:
`country ? city + ", " + country : city` (an empty country is falsy). -/
def stepLocation (city : Str) (country : Option Str) : Str :=
  match country with
  | some ctry => if ctry = [] then city else city ++ str ", " ++ ctry
  | Option.none => city

/-- `fetchWeatherStep` from `workflows/steps/fetch-weather.ts`: a
"location not found" class of provider error becomes a `FatalError`
naming the invalid location; any other error is rethrown as transient. -/
def fetchWeatherStep (provider : Except Str WeatherAPIResponse) (now : Nat)
    (cache : List WeatherCache) (city : Str) (country : Option Str) :
    Except WorkflowError (WeatherData × List WeatherCache) :=
  let location := stepLocation city country
  match getWeatherForCity provider now cache location with
  | .ok r => .ok (r.weather, r.cache)
  | .error message =>
    if includesStr message (str "not found")
        || includesStr message (str "No matching location") then
      .error { fatal := true, message := str "Invalid location: " ++ location }
    else
      .error { fatal := false, message := message }

/-- `generateImageStep` from `workflows/steps/generate-image.ts`: runs
`getOrGenerateImage` with the default model; content-policy phrasing in
the error message is classified Fatal. -/
def generateImageStep (gen : Except Str Str) (city : Str)
    (weatherCategory : WeatherCategory) (timeOfDay : TimeOfDay)
    (images : List CityImage) :
    Except WorkflowError (ImageResult × List CityImage) :=
  match getOrGenerateImage gen city weatherCategory timeOfDay .nanoBanana images with
  | .ok r => .ok r
  | .error message =>
    if includesStr message (str "content policy") || includesStr message (str "safety")
        || includesStr message (str "blocked") then
      .error { fatal := true, message := message }
    else
      .error { fatal := false, message := message }

/-- `generateVideoStep` from `workflows/steps/generate-video.ts`: the
video generator is an oracle yielding the raw video buffer (modelled as a
string of bytes); the same content-policy classification applies. -/
def generateVideoStep (gen : Except Str Str) : Except WorkflowError Str :=
  match gen with
  | .ok buf => .ok buf
  | .error message =>
    if includesStr message (str "content policy") || includesStr message (str "safety")
        || includesStr message (str "blocked") then
      .error { fatal := true, message := message }
    else
      .error { fatal := false, message := message }

/-- `processVideoStep` from `workflows/steps/process-video.ts`: mark the
media row `processing`, run the transcode-and-upload oracle (boomerang
transform plus storage upload, yielding the public video URL), then mark
the row `completed` with the video URL — or `failed`, rethrowing, if the
oracle fails.  Returns the step outcome and the `city_images` table after
the step. -/
def processVideoStep (transform : Except Str Str) (city : Str)
    (weatherCategory : WeatherCategory) (timeOfDay : TimeOfDay)
    (images : List CityImage) : Except WorkflowError Str × List CityImage :=
  let images1 := updateAnimationStatus images city weatherCategory timeOfDay
    .processing Option.none Option.none
  match transform with
  | .ok videoUrl =>
    (Except.ok videoUrl,
     updateAnimationStatus images1 city weatherCategory timeOfDay
       .completed (some videoUrl) (some videoUrl))
  | .error m =>
    (Except.error { fatal := false, message := m },
     updateAnimationStatus images1 city weatherCategory timeOfDay
       .failed Option.none Option.none)

/-- The mutable shared state the pipeline touches. -/
structure World where
  jobs : List VideoJob
  cityImages : List CityImage
  weatherCache : List WeatherCache
deriving DecidableEq, Repr

/-- The oracles of one workflow run: the current time and one response
per external collaborator. -/
structure Env where
  now : Nat
  weatherResp : Except Str WeatherAPIResponse
  imageGenResp : Except Str Str
  videoGenResp : Except Str Str
  processResp : Except Str Str
deriving DecidableEq, Repr

/-- `VideoWorkflowResult` from `workflows/city-video-workflow.ts`. -/
structure VideoWorkflowResult where
  jobId : Str
  videoUrl : Str
  imageUrl : Str
  weather : WeatherData
  timeOfDay : TimeOfDay
deriving DecidableEq, Repr

/-- Outcome of a workflow run: the returned value or error, the final
state, and the stages passed to `updateJobStageStep` in order. -/
structure WorkflowOutcome where
  result : Except WorkflowError VideoWorkflowResult
  world : World
  stageTrace : List JobStage
deriving DecidableEq, Repr

/-- The catch block of `cityVideoWorkflow`: fail the job with the error's
message and rethrow. -/
def failOutcome (now : Nat) (jobId : Str) (e : WorkflowError) (w : World)
    (trace : List JobStage) : WorkflowOutcome :=
  { result := .error e
    world := { w with jobs := applyFailJob now jobId e.message w.jobs }
    stageTrace := trace }

/-- `cityVideoWorkflow` from `workflows/city-video-workflow.ts`: start the
job, fetch weather, generate or reuse the image; if the media cache
already holds a video URL, complete immediately with `cached: true`;
otherwise generate and post-process the video and complete with
`cached: false`.  Any step error fails the job and rethrows. -/
def cityVideoWorkflow (env : Env) (w : World) (jobId city : Str)
    (country : Option Str) : WorkflowOutcome :=
  let w1 : World := { w with jobs := applyStartJob env.now jobId w.jobs }
  let w2 : World :=
    { w1 with jobs := applyUpdateJobStage env.now jobId .fetching_weather {} w1.jobs }
  let trace1 := [JobStage.fetching_weather]
  match fetchWeatherStep env.weatherResp env.now w2.weatherCache city country with
  | .error e => failOutcome env.now jobId e w2 trace1
  | .ok (weather, wcache') =>
    let w3 : World := { w2 with weatherCache := wcache' }
    let timeOfDay : TimeOfDay := if weather.isDay then .day else .night
    let w4 : World :=
      { w3 with jobs := applyUpdateJobStage env.now jobId .generating_image
                  { weather_data := some weather } w3.jobs }
    let trace2 := trace1 ++ [JobStage.generating_image]
    match generateImageStep env.imageGenResp city weather.category timeOfDay w4.cityImages with
    | .error e => failOutcome env.now jobId e w4 trace2
    | .ok (image, images') =>
      let w5 : World := { w4 with cityImages := images' }
      match jsString image.videoUrl with
      | some cachedVideoUrl =>
        let w6 : World :=
          { w5 with jobs := applyCompleteJob env.now jobId cachedVideoUrl weather
                      image.imageUrl true w5.jobs }
        { result := .ok { jobId := jobId
                          videoUrl := cachedVideoUrl
                          imageUrl := image.imageUrl
                          weather := weather
                          timeOfDay := timeOfDay }
          world := w6
          stageTrace := trace2 }
      | Option.none =>
        let w6 : World :=
          { w5 with jobs := applyUpdateJobStage env.now jobId .generating_video
                      { image_url := some image.imageUrl } w5.jobs }
        let trace3 := trace2 ++ [JobStage.generating_video]
        match generateVideoStep env.videoGenResp with
        | .error e => failOutcome env.now jobId e w6 trace3
        | .ok _rawVideoBuffer =>
          let w7 : World :=
            { w6 with jobs := applyUpdateJobStage env.now jobId .processing_video {} w6.jobs }
          let trace4 := trace3 ++ [JobStage.processing_video]
          match processVideoStep env.processResp city weather.category timeOfDay w7.cityImages with
          | (.error e, images'') =>
            failOutcome env.now jobId e { w7 with cityImages := images'' } trace4
          | (.ok videoUrl, images'') =>
            let w8 : World :=
              { w7 with
                cityImages := images''
                jobs := applyCompleteJob env.now jobId videoUrl weather
                          image.imageUrl false w7.jobs }
            { result := .ok { jobId := jobId
                              videoUrl := videoUrl
                              imageUrl := image.imageUrl
                              weather := weather
                              timeOfDay := timeOfDay }
              world := w8
              stageTrace := trace4 }

/-! ## Widget trigger (`lib/widget-job.ts`) -/

/-- Result of `triggerVideoGeneration`. -/
structure TriggerResult where
  jobId : Str
  alreadyProcessing : Bool
deriving DecidableEq, Repr

/-- `triggerVideoGeneration` from `lib/widget-job.ts` (the dedup variant):
reuse the active video job for the city when one exists, otherwise create
a new pending job.  Starting the durable workflow is fire-and-forget (a
start failure is logged and ignored), so it does not change the state
seen by the caller; the workflow run itself is `cityVideoWorkflow`. -/
def triggerVideoGeneration (dbFail createFail : Option Str) (now : Nat)
    (newId : Str) (apiKey city : Str) (country : Option Str)
    (jobs : List VideoJob) : Except Str (TriggerResult × List VideoJob) :=
  match getActiveJobForCity dbFail city .video jobs with
  | some existingJobId => .ok ({ jobId := existingJobId, alreadyProcessing := true }, jobs)
  | Option.none =>
    match createJob createFail now newId apiKey city country .video jobs with
    | .error e => .error e
    | .ok (jobId, jobs') => .ok ({ jobId := jobId, alreadyProcessing := false }, jobs')

/-! ## API route handlers (`app/api/v1/...`)

Authentication (`validateApiKeyAsync`) is presupposed: the handlers are
modelled from the point where a validated `apiKey` is in hand.  The
`ADMIN_API_KEY` environment variable is an `Option Str` parameter; request
ids and timing metadata are not modelled. -/

/-- `ADMIN_API_KEY && apiKey === ADMIN_API_KEY` (an unset or empty
environment variable is falsy). -/
def isAdminKey (adminKey : Option Str) (apiKey : Str) : Bool :=
  match adminKey with
  | some k => !(k = []) && apiKey == k
  | Option.none => false

/-- The message of the generic not-found error of the poll endpoint. -/
def jobNotFoundMsg (jobId : Str) : Str :=
  str "Job '" ++ jobId ++ str "' not found. It may have expired or never existed."

/-- A response of the poll endpoint `GET /api/v1/city-image/[jobId]`:
either an error envelope (code, message, and the `job_id`/`stage` details
attached to failed-job errors) or a success envelope. -/
inductive JobPollResponse
  | errorResp (code : Str) (message : Str) (jobIdDetail : Option Str)
      (stageDetail : Option (Option JobStage))
  | statusResp (jobId : Str) (status : JobStatus) (stage : Option JobStage)
      (progress : Option (Nat × Nat × Str))
  | completedResp (jobId : Str) (city : Str) (country : Str) (imageUrl : Str)
      (weather : WeatherData) (generatedAt : Nat) (cached : Bool)
deriving DecidableEq, Repr

/-- `buildJobResponse` from `app/api/v1/city-image/[jobId]/route.ts`:
the completed payload when the job is completed with a result (for image
jobs `video_url` holds the image URL), otherwise the pending/processing
status payload with progress from `STAGE_INFO` (total hard-coded to 2 for
image jobs).  `generated_at` falls back to the current time. -/
def buildJobResponse (now : Nat) (job : VideoJob) : JobPollResponse :=
  match job.status, jsString job.video_url, job.weather_data with
  | .completed, some videoUrl, some weather =>
    .completedResp job.id job.city (job.country.getD []) videoUrl weather
      (job.completed_at.getD now) job.cached
  | _, _, _ =>
    match job.stage with
    | some stage =>
      .statusResp job.id job.status (some stage)
        (some ((STAGE_INFO stage).1, 2, (STAGE_INFO stage).2.2))
    | Option.none => .statusResp job.id job.status Option.none Option.none

/-- `GET /api/v1/city-image/[jobId]` from
`app/api/v1/city-image/[jobId]/route.ts`, run against the honest
datastore: a missing job and a job owned by someone else both produce the
same generic `JOB_NOT_FOUND` error; failed jobs produce a
`VIDEO_GENERATION_FAILED` error carrying the failing stage. -/
def pollCityImageJob (adminKey : Option Str) (now : Nat) (apiKey jobId : Str)
    (jobs : List VideoJob) : JobPollResponse :=
  let isAdmin := isAdminKey adminKey apiKey
  match findJob jobs jobId with
  | Option.none =>
    .errorResp (str "JOB_NOT_FOUND") (jobNotFoundMsg jobId) Option.none Option.none
  | some job =>
    if !isAdmin && !validateJobOwnership job apiKey then
      .errorResp (str "JOB_NOT_FOUND") (jobNotFoundMsg jobId) Option.none Option.none
    else if job.status == .failed then
      .errorResp (str "VIDEO_GENERATION_FAILED")
        ((jsString job.error_message).getD (str "Image generation failed"))
        (some job.id) (some job.stage)
    else buildJobResponse now job

/-- A response of the submission endpoint `POST /api/v1/city-video`: an
error envelope (code, message, and the `active_job_id` detail attached to
rate-limit errors) or the 202 job-accepted envelope. -/
inductive SubmitResponse
  | errorResp (code : Str) (message : Str) (activeJobId : Option Str)
  | accepted (jobId : Str)
deriving DecidableEq, Repr

/-- Outcome of the submission handler: the response and the job table
after the call.  The background `processVideoJob` kick-off is
fire-and-forget and does not change the state seen by the caller. -/
structure SubmitOutcome where
  response : SubmitResponse
  jobs : List VideoJob
deriving DecidableEq, Repr

/-- `body.country?.trim() || undefined` of the submission handler. -/
def submitCountry : Option Str → Option Str
  | some c => jsString (some (trimStr c))
  | Option.none => Option.none

/-- `POST /api/v1/city-video` from `app/api/v1/city-video/route.ts`:
non-admin callers are rejected with `RATE_LIMITED` and the active job id
when they already have a pending or processing job; a failing rate-limit
check is caught and the request proceeds ("Continue anyway - better to
allow the request than block on error").  The body's city field is `none`
when missing or not a string, and an empty string is falsy
(`MISSING_CITY`); the trimmed city must be non-empty and at most 100
characters.  `rateFail` and `createFail` inject datastore failures into
the rate-limit lookup and the insert. -/
def postCityVideo (adminKey : Option Str) (rateFail createFail : Option Str)
    (now : Nat) (newId : Str) (apiKey : Str) (cityField countryField : Option Str)
    (jobs : List VideoJob) : SubmitOutcome :=
  let isAdmin := isAdminKey adminKey apiKey
  let rateBlock : Option Str :=
    if isAdmin then Option.none
    else
      match getActiveJobForApiKey rateFail apiKey jobs with
      | .ok r => r
      | .error _ => Option.none
  match rateBlock with
  | some activeJobId =>
    { response := .errorResp (str "RATE_LIMITED")
        (str "You already have an active job in progress. Please wait for it to complete or poll its status.")
        (some activeJobId)
      jobs := jobs }
  | Option.none =>
    match jsString cityField with
    | Option.none =>
      { response := .errorResp (str "MISSING_CITY")
          (str "The 'city' field is required and must be a string") Option.none
        jobs := jobs }
    | some rawCity =>
      let city := trimStr rawCity
      if city = [] then
        { response := .errorResp (str "INVALID_CITY")
            (str "City name cannot be empty") Option.none
          jobs := jobs }
      else if city.length > 100 then
        { response := .errorResp (str "INVALID_CITY")
            (str "City name is too long (maximum 100 characters)") Option.none
          jobs := jobs }
      else
        match createJob createFail now newId apiKey city (submitCountry countryField) .video jobs with
        | .error _ =>
          { response := .errorResp (str "INTERNAL_ERROR")
              (str "Failed to create job. Please try again.") Option.none
            jobs := jobs }
        | .ok (jobId, jobs') => { response := .accepted jobId, jobs := jobs' }

/-! ## Concrete fixtures used by counterexamples and witnesses -/

/-- A concrete weather snapshot. -/
def sampleWeather : WeatherData :=
  { category := .sunny
    conditionCode := 1000
    conditionText := str "Sunny"
    tempC := 20
    tempF := 68
    humidity := 40
    windKph := 10
    isDay := true
    cached := false }

/-- A freshly created pending job for the city "paris". -/
def pendingJob : VideoJob :=
  { id := str "job_a"
    api_key_hash := hashApiKey (str "key1")
    status := .pending
    stage := Option.none
    job_type := .video
    city := str "paris"
    country := Option.none
    weather_data := Option.none
    image_url := Option.none
    video_url := Option.none
    error_message := Option.none
    cached := false
    created_at := 0
    updated_at := 0
    completed_at := Option.none }

/-- The table after completing `pendingJob`. -/
def c1Jobs1 : List VideoJob :=
  applyCompleteJob 1 (str "job_a") (str "v.mp4") sampleWeather (str "i.png") false [pendingJob]

/-- `c1Jobs1` after a further `startJob` for the same id. -/
def c1Jobs2 : List VideoJob := applyStartJob 2 (str "job_a") c1Jobs1

/-- The completed row sitting in `c1Jobs1`. -/
def c1CompletedJob : VideoJob :=
  { pendingJob with
    status := .completed
    stage := Option.none
    video_url := some (str "v.mp4")
    weather_data := some sampleWeather
    image_url := some (str "i.png")
    cached := false
    updated_at := 1
    completed_at := some 1 }

/-- The row filter of `getActiveJobForCity` for a video job, as a named
predicate (used to state the dedup theorems). -/
def cityJobPred (city : Str) (j : VideoJob) : Bool :=
  ilikeEq j.city (trimStr (lowerStr city)) && j.job_type == JobType.video
    && isActiveStatus j.status

/-- A concrete weather cache row for the city "paris", stamped at time 0. -/
def sampleCacheRow : WeatherCache :=
  { city := str "paris"
    weather_category := .sunny
    weather_data :=
      { condition_code := 1000
        condition_text := str "Sunny"
        temp_c := 20
        temp_f := 68
        humidity := 40
        wind_kph := 10
        is_day := 1 }
    fetched_at := 0 }

/-- A concrete provider response for a rainy reading. -/
def sampleResp : WeatherAPIResponse :=
  { location_name := str "Paris"
    location_country := str "France"
    temp_c := 11
    temp_f := 52
    is_day := 0
    condition_text := str "Light rain"
    condition_code := 1183
    humidity := 80
    wind_kph := 15 }

/-- A cached media row for rainy-night "paris" that already has a video. -/
def c6Image : CityImage :=
  { city := str "paris"
    weather_category := .rainy
    time_of_day := .night
    image_url := str "i.png"
    animation_url := Option.none
    video_url := some (str "v.mp4")
    animation_status := some .completed }

/-- A world holding the pending job and the cached rainy-night media row. -/
def c6World : World :=
  { jobs := [pendingJob], cityImages := [c6Image], weatherCache := [] }

/-- Oracles for a run that resolves rainy-night weather from the provider;
the generation oracles are never consulted on the short-circuit path. -/
def c6Env : Env :=
  { now := 50
    weatherResp := .ok sampleResp
    imageGenResp := .error (str "unused")
    videoGenResp := .error (str "unused")
    processResp := .error (str "unused") }

/-- The snapshot the pipeline resolves from `sampleResp`. -/
def c6Weather : WeatherData :=
  { category := .rainy
    conditionCode := 1183
    conditionText := str "Light rain"
    tempC := 11
    tempF := 52
    humidity := 80
    windKph := 15
    isDay := false
    cached := false
    locationName := some (str "Paris")
    country := some (str "France") }

/-- The weather cache row written during that run. -/
def c6CacheRow : WeatherCache :=
  { city := str "paris"
    weather_category := .rainy
    weather_data :=
      { condition_code := 1183
        condition_text := str "Light rain"
        temp_c := 11
        temp_f := 52
        humidity := 80
        wind_kph := 15
        is_day := 0 }
    fetched_at := 50 }

/-- A world with only the pending job, for the failing-weather run. -/
def c5World : World :=
  { jobs := [pendingJob], cityImages := [], weatherCache := [] }

/-- Oracles for a run whose weather provider reports an unknown location. -/
def c5Env : Env :=
  { now := 60
    weatherResp := .error (str "No matching location found.")
    imageGenResp := .error (str "unused")
    videoGenResp := .error (str "unused")
    processResp := .error (str "unused") }

/-- The row filter of `getActiveJobForApiKey`, as a named predicate. -/
def apiKeyJobPred (apiKey : Str) (j : VideoJob) : Bool :=
  j.api_key_hash == hashApiKey apiKey && isActiveStatus j.status

/-- A reachable table: create a job, start it, then fail it. -/
def c2Jobs : List VideoJob :=
  applyFailJob 2 (str "job_a") (str "boom")
    (applyStartJob 1 (str "job_a")
      (applyCreateJob 0 (str "job_a") (str "key1") (str "paris") Option.none .video []))

end CityMood

namespace CityMood

/-! ## General lemmas about the embedded operations -/

/-- `find?` after a conditional rewrite of the matching elements, when the
rewrite preserves the predicate. -/
theorem find_update {α : Type} (p : α → Bool) (f : α → α)
    (hp : ∀ a, p (f a) = p a) :
    ∀ l : List α, (l.map fun a => if p a then f a else a).find? p = (l.find? p).map f
  | [] => rfl
  | a :: l => by
    by_cases h : p a = true
    · simp [h, hp a]
    · simp [h, hp a, find_update p f hp l]

/-- A conditional rewrite is the identity when nothing matches. -/
theorem update_no_match {α : Type} (p : α → Bool) (f : α → α) (l : List α)
    (h : l.find? p = Option.none) :
    (l.map fun a => if p a then f a else a) = l := by
  have hall := List.find?_eq_none.mp h
  calc (l.map fun a => if p a then f a else a) = l.map id := by
        apply List.map_congr_left
        intro a ha
        simp [hall a ha]
    _ = l := List.map_id l

/-- `applyStartJob` rewrites exactly the looked-up row. -/
theorem findJob_applyStartJob (now : Nat) (jobId : Str) (jobs : List VideoJob) :
    findJob (applyStartJob now jobId jobs) jobId =
      (findJob jobs jobId).map fun j =>
        { j with status := JobStatus.processing,
                 stage := some JobStage.fetching_weather, updated_at := now } := by
  simp only [findJob, applyStartJob, updateJobRow]
  exact find_update (fun (j : VideoJob) => j.id == jobId)
    (fun (j : VideoJob) =>
      { j with
        status := JobStatus.processing
        stage := some JobStage.fetching_weather
        updated_at := now })
    (fun _ => rfl) jobs

/-- `applyUpdateJobStage` rewrites exactly the looked-up row. -/
theorem findJob_applyUpdateJobStage (now : Nat) (jobId : Str) (stage : JobStage)
    (patch : StagePatch) (jobs : List VideoJob) :
    findJob (applyUpdateJobStage now jobId stage patch jobs) jobId =
      (findJob jobs jobId).map fun j =>
        { applyPatch patch j with stage := some stage, updated_at := now } := by
  simp only [findJob, applyUpdateJobStage, updateJobRow]
  exact find_update (fun (j : VideoJob) => j.id == jobId)
    (fun (j : VideoJob) =>
      { applyPatch patch j with stage := some stage, updated_at := now })
    (fun _ => rfl) jobs

/-- `applyCompleteJob` rewrites exactly the looked-up row. -/
theorem findJob_applyCompleteJob (now : Nat) (jobId : Str) (videoUrl : Str)
    (w : WeatherData) (imageUrl : Str) (c : Bool) (jobs : List VideoJob) :
    findJob (applyCompleteJob now jobId videoUrl w imageUrl c jobs) jobId =
      (findJob jobs jobId).map fun j =>
        { j with status := JobStatus.completed, stage := Option.none,
                 video_url := some videoUrl, weather_data := some w,
                 image_url := some imageUrl, cached := c,
                 updated_at := now, completed_at := some now } := by
  simp only [findJob, applyCompleteJob, updateJobRow]
  exact find_update (fun (j : VideoJob) => j.id == jobId)
    (fun (j : VideoJob) =>
      { j with
        status := JobStatus.completed
        stage := Option.none
        video_url := some videoUrl
        weather_data := some w
        image_url := some imageUrl
        cached := c
        updated_at := now
        completed_at := some now })
    (fun _ => rfl) jobs

/-- `applyFailJob` rewrites exactly the looked-up row. -/
theorem findJob_applyFailJob (now : Nat) (jobId : Str) (errMsg : Str)
    (jobs : List VideoJob) :
    findJob (applyFailJob now jobId errMsg jobs) jobId =
      (findJob jobs jobId).map fun j =>
        { j with status := JobStatus.failed, error_message := some errMsg,
                 updated_at := now } := by
  simp only [findJob, applyFailJob, updateJobRow]
  exact find_update (fun (j : VideoJob) => j.id == jobId)
    (fun (j : VideoJob) =>
      { j with
        status := JobStatus.failed
        error_message := some errMsg
        updated_at := now })
    (fun _ => rfl) jobs

/-- `updateJobRow` is the identity when the id is absent. -/
theorem updateJobRow_no_match (jobs : List VideoJob) (jobId : Str)
    (f : VideoJob → VideoJob) (h : findJob jobs jobId = Option.none) :
    updateJobRow jobs jobId f = jobs :=
  update_no_match _ f jobs h

/-- Whatever `latestByCreated` returns is a member of the list. -/
theorem latestByCreated_mem :
    ∀ (l : List VideoJob) (x : VideoJob), latestByCreated l = some x → x ∈ l
  | [], x => by intro h; cases h
  | j :: rest, x => by
    intro h
    cases hr : latestByCreated rest with
    | none =>
      simp only [latestByCreated, hr] at h
      cases h
      exact List.mem_cons_self _ _
    | some a =>
      simp only [latestByCreated, hr] at h
      by_cases hc : a.created_at ≤ j.created_at
      · rw [if_pos hc] at h
        cases h
        exact List.mem_cons_self _ _
      · rw [if_neg hc] at h
        cases h
        exact List.mem_cons_of_mem _ (latestByCreated_mem rest x hr)

/-- `latestByCreated` yields a row on any non-empty list. -/
theorem latestByCreated_of_ne_nil :
    ∀ (l : List VideoJob), l ≠ [] → ∃ x, latestByCreated l = some x
  | [], h => absurd rfl h
  | j :: rest, _ => by
    cases hr : latestByCreated rest with
    | none => exact ⟨j, by simp only [latestByCreated, hr]⟩
    | some a =>
      by_cases hc : a.created_at ≤ j.created_at
      · exact ⟨j, by simp only [latestByCreated, hr]; rw [if_pos hc]⟩
      · exact ⟨a, by simp only [latestByCreated, hr]; rw [if_neg hc]⟩

/-- `startsWith` is reflexive. -/
theorem startsWith_refl : ∀ s : Str, startsWith s s = true
  | [] => rfl
  | c :: cs => by simp [startsWith, startsWith_refl cs]

/-- A string contains its own suffix. -/
theorem includes_append_right : ∀ a b : Str, includesStr (a ++ b) b = true
  | [], [] => rfl
  | [], c :: cs => by simp [includesStr, startsWith_refl]
  | x :: a, b => by simp [includesStr, includes_append_right a b]

/-! ## Claims -/

/-- C1, counterexample: a job completed by `completeJob` is mutated by a
subsequent `startJob` for the same id — the record returned by `getJob`
changes, so terminal statuses are not guarded by the Job Ledger. -/
theorem C1_counterexample :
    (findJob c1Jobs1 (str "job_a")).map VideoJob.status = some JobStatus.completed ∧
    startJob Option.none 2 (str "job_a") c1Jobs1 = .ok c1Jobs2 ∧
    getJob Option.none c1Jobs2 (str "job_a") ≠ getJob Option.none c1Jobs1 (str "job_a") := by
  decide

/-- C1 (amended): `completeJob` and `failJob` set a terminal status, but
the Job Ledger operations do not guard terminal records — a subsequent
`startJob` for the id of a completed or failed job mutates the record
observable via `getJob`, setting status back to `processing` with stage
`fetching_weather`; the no-further-mutation property holds only while no
further mutator is invoked for that id. -/
theorem C1_no_terminal_guard (jobs : List VideoJob) (jobId : Str) (j : VideoJob)
    (now : Nat) (hfind : findJob jobs jobId = some j)
    (hterm : j.status = .completed ∨ j.status = .failed) :
    startJob Option.none now jobId jobs = .ok (applyStartJob now jobId jobs) ∧
    findJob (applyStartJob now jobId jobs) jobId =
      some { j with status := .processing, stage := some .fetching_weather, updated_at := now } := by
  refine ⟨rfl, ?_⟩
  rw [findJob_applyStartJob, hfind]
  rfl

/-- C1, witness for the amended theorem at the concrete completed job. -/
theorem C1_no_terminal_guard_witness :
    startJob Option.none 2 (str "job_a") c1Jobs1 = .ok (applyStartJob 2 (str "job_a") c1Jobs1) ∧
    findJob (applyStartJob 2 (str "job_a") c1Jobs1) (str "job_a") =
      some { c1CompletedJob with
             status := .processing, stage := some .fetching_weather, updated_at := 2 } :=
  C1_no_terminal_guard c1Jobs1 (str "job_a") c1CompletedJob 2 (by decide) (Or.inl (by decide))

/-- C2, counterexample: a reachable job (created, started, then failed by
`failJob`) has status `failed` with stage still `fetching_weather` —
`failJob` moves the job out of `processing` without clearing `stage`. -/
theorem C2_counterexample :
    (findJob c2Jobs (str "job_a")).map (fun j => (j.status, j.stage)) =
      some (JobStatus.failed, some JobStage.fetching_weather) := by
  decide

/-- C2 (amended): the stage field can be non-null while status is
`processing` or `failed`: `completeJob` leaves the job with stage null,
but `failJob` preserves the stage the job was in when it failed (the poll
endpoint reports it as the failing stage). -/
theorem C2_stage_on_terminal (jobs : List VideoJob) (jobId : Str) (j : VideoJob)
    (now : Nat) (videoUrl imageUrl errMsg : Str) (w : WeatherData) (c : Bool)
    (hfind : findJob jobs jobId = some j) :
    (findJob (applyCompleteJob now jobId videoUrl w imageUrl c jobs) jobId).map VideoJob.stage
      = some Option.none ∧
    (findJob (applyFailJob now jobId errMsg jobs) jobId).map (fun x => (x.status, x.stage))
      = some (JobStatus.failed, j.stage) := by
  constructor
  · rw [findJob_applyCompleteJob, hfind]
    rfl
  · rw [findJob_applyFailJob, hfind]
    rfl

/-- C2, witness for the amended theorem at a concrete processing job. -/
theorem C2_stage_on_terminal_witness :
    (findJob (applyCompleteJob 2 (str "job_a") (str "v.mp4") sampleWeather (str "i.png") false
        (applyStartJob 1 (str "job_a") [pendingJob])) (str "job_a")).map VideoJob.stage
      = some Option.none ∧
    (findJob (applyFailJob 2 (str "job_a") (str "boom")
        (applyStartJob 1 (str "job_a") [pendingJob])) (str "job_a")).map
          (fun x => (x.status, x.stage))
      = some (JobStatus.failed, some JobStage.fetching_weather) :=
  C2_stage_on_terminal (applyStartJob 1 (str "job_a") [pendingJob]) (str "job_a")
    { pendingJob with status := .processing, stage := some .fetching_weather, updated_at := 1 }
    2 (str "v.mp4") (str "i.png") (str "boom") sampleWeather false (by decide)

/-- C9, counterexample: `startJob` for an id with no job row does not fail
— the update affects zero rows and succeeds. -/
theorem C9_counterexample :
    findJob [] (str "job_x") = Option.none ∧
    startJob Option.none 5 (str "job_x") [] = .ok [] := by
  decide

/-- C9 (amended): `startJob` errors only on datastore failure; when no job
with the id exists it succeeds leaving the table unchanged, and when the
job exists it sets status `processing` and stage `fetching_weather`. -/
theorem C9_startJob_behavior :
    (∀ (now : Nat) (jobId : Str) (jobs : List VideoJob),
      findJob jobs jobId = Option.none →
      startJob Option.none now jobId jobs = .ok jobs) ∧
    (∀ (now : Nat) (jobId : Str) (jobs : List VideoJob) (j : VideoJob),
      findJob jobs jobId = some j →
      startJob Option.none now jobId jobs = .ok (applyStartJob now jobId jobs) ∧
      findJob (applyStartJob now jobId jobs) jobId =
        some { j with status := .processing, stage := some .fetching_weather,
                      updated_at := now }) ∧
    (∀ (now : Nat) (jobId : Str) (jobs : List VideoJob) (m : Str),
      startJob (some m) now jobId jobs = .error (str "Failed to start job: " ++ m)) := by
  refine ⟨?_, ?_, ?_⟩
  · intro now jobId jobs h
    show Except.ok (applyStartJob now jobId jobs) = Except.ok jobs
    rw [applyStartJob, updateJobRow_no_match _ _ _ h]
  · intro now jobId jobs j h
    refine ⟨rfl, ?_⟩
    rw [findJob_applyStartJob, h]
    rfl
  · intro now jobId jobs m
    rfl

/-- `getActiveJobForCity` returns the id of some matching active job
whenever a matching active job exists (and all ids are non-empty). -/
theorem getActiveJobForCity_of_mem (jobs : List VideoJob) (city : Str)
    (j : VideoJob) (hids : ∀ x ∈ jobs, x.id ≠ [])
    (hmem : j ∈ jobs) (hpred : cityJobPred city j = true) :
    ∃ ex : VideoJob, ex ∈ jobs ∧ cityJobPred city ex = true ∧
      getActiveJobForCity Option.none city JobType.video jobs = some ex.id := by
  have hmemf : j ∈ jobs.filter (cityJobPred city) := List.mem_filter.mpr ⟨hmem, hpred⟩
  obtain ⟨ex, hex⟩ :=
    latestByCreated_of_ne_nil _ (List.ne_nil_of_mem hmemf)
  have hexmem := List.mem_filter.mp (latestByCreated_mem _ _ hex)
  refine ⟨ex, hexmem.1, hexmem.2, ?_⟩
  show (match latestByCreated (jobs.filter fun x =>
      ilikeEq x.city (trimStr (lowerStr city)) && x.job_type == JobType.video
        && isActiveStatus x.status) with
    | Option.none => (Option.none : Option Str)
    | some x => strOrNone x.id) = some ex.id
  have hfe : (jobs.filter fun x =>
      ilikeEq x.city (trimStr (lowerStr city)) && x.job_type == JobType.video
        && isActiveStatus x.status) = jobs.filter (cityJobPred city) := rfl
  rw [hfe, hex]
  simp [strOrNone, hids ex hexmem.1]

/-- C3: when a pending or processing video job matching the
case-and-whitespace-normalized city already exists, the widget trigger
returns that job's id with `alreadyProcessing := true` and creates no new
job; consequently two sequential widget triggers for the same (trimmed)
city create exactly one job — the second observes the first's id. -/
theorem C3_widget_dedup :
    (∀ (jobs : List VideoJob) (apiKey city : Str) (country : Option Str)
       (now : Nat) (newId : Str) (j : VideoJob),
      (∀ x ∈ jobs, x.id ≠ []) →
      j ∈ jobs → j.job_type = JobType.video → isActiveStatus j.status = true →
      ilikeEq j.city (trimStr (lowerStr city)) = true →
      ∃ ex : VideoJob, ex ∈ jobs ∧ ex.job_type = JobType.video ∧
        isActiveStatus ex.status = true ∧
        ilikeEq ex.city (trimStr (lowerStr city)) = true ∧
        triggerVideoGeneration Option.none Option.none now newId apiKey city country jobs =
          .ok ({ jobId := ex.id, alreadyProcessing := true }, jobs)) ∧
    (∀ (jobs : List VideoJob) (apiKey apiKey2 city : Str)
       (country country2 : Option Str) (now now2 : Nat) (newId newId2 : Str),
      jobs.filter (cityJobPred city) = [] →
      ilikeEq city (trimStr (lowerStr city)) = true →
      newId ≠ [] →
      ∃ jobs',
        triggerVideoGeneration Option.none Option.none now newId apiKey city country jobs =
          .ok ({ jobId := newId, alreadyProcessing := false }, jobs') ∧
        triggerVideoGeneration Option.none Option.none now2 newId2 apiKey2 city country2 jobs' =
          .ok ({ jobId := newId, alreadyProcessing := true }, jobs')) := by
  constructor
  · intro jobs apiKey city country now newId j hids hmem hty hact hcity
    have hpred : cityJobPred city j = true := by
      simp [cityJobPred, hcity, hty, hact]
    obtain ⟨ex, hexmem, hexpred, hlookup⟩ :=
      getActiveJobForCity_of_mem jobs city j hids hmem hpred
    simp only [cityJobPred, Bool.and_eq_true, beq_iff_eq] at hexpred
    refine ⟨ex, hexmem, hexpred.1.2, hexpred.2, hexpred.1.1, ?_⟩
    simp [triggerVideoGeneration, hlookup]
  · intro jobs apiKey apiKey2 city country country2 now now2 newId newId2 hfilter hself hnew
    have h1 : getActiveJobForCity Option.none city JobType.video jobs = Option.none := by
      show (match latestByCreated (jobs.filter fun x =>
          ilikeEq x.city (trimStr (lowerStr city)) && x.job_type == JobType.video
            && isActiveStatus x.status) with
        | Option.none => (Option.none : Option Str)
        | some x => strOrNone x.id) = Option.none
      have hfe : (jobs.filter fun x =>
          ilikeEq x.city (trimStr (lowerStr city)) && x.job_type == JobType.video
            && isActiveStatus x.status) = jobs.filter (cityJobPred city) := rfl
      rw [hfe, hfilter]
      rfl
    refine ⟨applyCreateJob now newId apiKey city country JobType.video jobs, ?_, ?_⟩
    · simp [triggerVideoGeneration, h1, createJob]
    · have h2 : getActiveJobForCity Option.none city JobType.video
          (applyCreateJob now newId apiKey city country JobType.video jobs) = some newId := by
        show (match latestByCreated ((applyCreateJob now newId apiKey city country
              JobType.video jobs).filter fun x =>
            ilikeEq x.city (trimStr (lowerStr city)) && x.job_type == JobType.video
              && isActiveStatus x.status) with
          | Option.none => (Option.none : Option Str)
          | some x => strOrNone x.id) = some newId
        have hfe : ((applyCreateJob now newId apiKey city country JobType.video jobs).filter
              fun x => ilikeEq x.city (trimStr (lowerStr city)) && x.job_type == JobType.video
                && isActiveStatus x.status)
            = (applyCreateJob now newId apiKey city country JobType.video jobs).filter
                (cityJobPred city) := rfl
        rw [hfe, applyCreateJob, List.filter_append, hfilter]
        simp only [List.nil_append, List.filter, cityJobPred, hself]
        simp [latestByCreated, strOrNone, hnew]
      simp [triggerVideoGeneration, h2]

/-- C3, witness: a first trigger for "Paris" on an empty table creates
`job_1`; a second trigger returns `job_1` with `alreadyProcessing`. -/
theorem C3_widget_dedup_witness :
    ∃ jobs',
      triggerVideoGeneration Option.none Option.none 10 (str "job_1") (str "key1")
        (str "Paris") Option.none [] =
        .ok ({ jobId := str "job_1", alreadyProcessing := false }, jobs') ∧
      triggerVideoGeneration Option.none Option.none 11 (str "job_2") (str "key2")
        (str "Paris") Option.none jobs' =
        .ok ({ jobId := str "job_1", alreadyProcessing := true }, jobs') :=
  C3_widget_dedup.2 [] (str "key1") (str "key2") (str "Paris") Option.none Option.none
    10 11 (str "job_1") (str "job_2") (by decide) (by decide) (by decide)

/-- `getActiveJobForApiKey` returns the id of some active job of the
caller whenever one exists (and all ids are non-empty). -/
theorem getActiveJobForApiKey_of_mem (jobs : List VideoJob) (apiKey : Str)
    (j : VideoJob) (hids : ∀ x ∈ jobs, x.id ≠ [])
    (hmem : j ∈ jobs) (hpred : apiKeyJobPred apiKey j = true) :
    ∃ ex : VideoJob, ex ∈ jobs ∧ apiKeyJobPred apiKey ex = true ∧
      getActiveJobForApiKey Option.none apiKey jobs = .ok (some ex.id) := by
  have hmemf : j ∈ jobs.filter (apiKeyJobPred apiKey) := List.mem_filter.mpr ⟨hmem, hpred⟩
  obtain ⟨ex, hex⟩ := latestByCreated_of_ne_nil _ (List.ne_nil_of_mem hmemf)
  have hexmem := List.mem_filter.mp (latestByCreated_mem _ _ hex)
  refine ⟨ex, hexmem.1, hexmem.2, ?_⟩
  show (match latestByCreated (jobs.filter fun x =>
      x.api_key_hash == hashApiKey apiKey && isActiveStatus x.status) with
    | Option.none => Except.ok (Option.none : Option Str)
    | some x => Except.ok (strOrNone x.id)) = .ok (some ex.id)
  have hfe : (jobs.filter fun x =>
      x.api_key_hash == hashApiKey apiKey && isActiveStatus x.status)
      = jobs.filter (apiKeyJobPred apiKey) := rfl
  rw [hfe, hex]
  simp [strOrNone, hids ex hexmem.1]

/-- C7: a non-admin caller with an active (pending or processing) job is
rejected with `RATE_LIMITED` carrying that active job's id and no job is
created; an admin caller bypasses the per-caller check and gets a new job
accepted regardless of any active jobs. -/
theorem C7_per_caller_limit :
    (∀ (adminKey : Option Str) (now : Nat) (newId apiKey : Str)
       (cityField countryField : Option Str) (jobs : List VideoJob) (j : VideoJob),
      isAdminKey adminKey apiKey = false →
      (∀ x ∈ jobs, x.id ≠ []) →
      j ∈ jobs → j.api_key_hash = hashApiKey apiKey → isActiveStatus j.status = true →
      ∃ ex : VideoJob, ex ∈ jobs ∧ ex.api_key_hash = hashApiKey apiKey ∧
        isActiveStatus ex.status = true ∧
        postCityVideo adminKey Option.none Option.none now newId apiKey
            cityField countryField jobs =
          { response := .errorResp (str "RATE_LIMITED")
              (str "You already have an active job in progress. Please wait for it to complete or poll its status.")
              (some ex.id)
            jobs := jobs }) ∧
    (∀ (adminKey : Option Str) (now : Nat) (newId apiKey rawCity : Str)
       (countryField : Option Str) (jobs : List VideoJob),
      isAdminKey adminKey apiKey = true →
      rawCity ≠ [] → trimStr rawCity ≠ [] → (trimStr rawCity).length ≤ 100 →
      postCityVideo adminKey Option.none Option.none now newId apiKey
          (some rawCity) countryField jobs =
        { response := .accepted newId
          jobs := applyCreateJob now newId apiKey (trimStr rawCity)
                    (submitCountry countryField) JobType.video jobs }) := by
  constructor
  · intro adminKey now newId apiKey cityField countryField jobs j hadmin hids hmem hhash hact
    have hpred : apiKeyJobPred apiKey j = true := by
      simp [apiKeyJobPred, hhash, hact]
    obtain ⟨ex, hexmem, hexpred, hlookup⟩ :=
      getActiveJobForApiKey_of_mem jobs apiKey j hids hmem hpred
    simp only [apiKeyJobPred, Bool.and_eq_true, beq_iff_eq] at hexpred
    refine ⟨ex, hexmem, hexpred.1, hexpred.2, ?_⟩
    simp [postCityVideo, hadmin, hlookup]
  · intro adminKey now newId apiKey rawCity countryField jobs hadmin hraw htrim hlen
    cases rawCity with
    | nil => exact absurd rfl hraw
    | cons c cs =>
      have hlen' : ¬ (100 < (trimStr (c :: cs)).length) := Nat.not_lt.mpr hlen
      simp [postCityVideo, hadmin, htrim, hlen', jsString, createJob]

/-- C7, witness: the non-admin caller `key1` with the pending `job_a` is
rate-limited and no job is created; the admin key gets `job_b` accepted
on the same table. -/
theorem C7_per_caller_limit_witness :
    (∃ ex : VideoJob, ex ∈ [pendingJob] ∧ ex.api_key_hash = hashApiKey (str "key1") ∧
      isActiveStatus ex.status = true ∧
      postCityVideo (some (str "admin")) Option.none Option.none 5 (str "job_b")
          (str "key1") (some (str "Paris")) Option.none [pendingJob] =
        { response := .errorResp (str "RATE_LIMITED")
            (str "You already have an active job in progress. Please wait for it to complete or poll its status.")
            (some ex.id)
          jobs := [pendingJob] }) ∧
    postCityVideo (some (str "admin")) Option.none Option.none 5 (str "job_b")
        (str "admin") (some (str "Paris")) Option.none [pendingJob] =
      { response := .accepted (str "job_b")
        jobs := applyCreateJob 5 (str "job_b") (str "admin") (trimStr (str "Paris"))
                  (submitCountry Option.none) JobType.video [pendingJob] } :=
  ⟨C7_per_caller_limit.1 (some (str "admin")) 5 (str "job_b") (str "key1")
      (some (str "Paris")) Option.none [pendingJob] pendingJob
      (by decide) (by decide) (by decide) (by decide) (by decide),
   C7_per_caller_limit.2 (some (str "admin")) 5 (str "job_b") (str "admin")
      (str "Paris") Option.none [pendingJob]
      (by decide) (by decide) (by decide) (by decide)⟩

/-- C10: admission control fails open on datastore errors: a
non-no-rows lookup failure makes `getActiveJobForCity` report "no active
job" (so the widget trigger creates a possibly duplicate job), and the
submission handler catches a failing per-caller rate-limit lookup and
still creates the job rather than surfacing the error. -/
theorem C10_fail_open :
    (∀ (m : Str) (city : Str) (jobType : JobType) (jobs : List VideoJob),
      getActiveJobForCity (some m) city jobType jobs = Option.none) ∧
    (∀ (adminKey : Option Str) (m : Str) (now : Nat) (newId apiKey rawCity : Str)
       (countryField : Option Str) (jobs : List VideoJob),
      isAdminKey adminKey apiKey = false →
      rawCity ≠ [] → trimStr rawCity ≠ [] → (trimStr rawCity).length ≤ 100 →
      postCityVideo adminKey (some m) Option.none now newId apiKey
          (some rawCity) countryField jobs =
        { response := .accepted newId
          jobs := applyCreateJob now newId apiKey (trimStr rawCity)
                    (submitCountry countryField) JobType.video jobs }) ∧
    (∀ (m : Str) (now : Nat) (newId apiKey city : Str) (country : Option Str)
       (jobs : List VideoJob),
      triggerVideoGeneration (some m) Option.none now newId apiKey city country jobs =
        .ok ({ jobId := newId, alreadyProcessing := false },
             applyCreateJob now newId apiKey city country JobType.video jobs)) := by
  refine ⟨fun m city jobType jobs => rfl, ?_, fun m now newId apiKey city country jobs => rfl⟩
  intro adminKey m now newId apiKey rawCity countryField jobs hadmin hraw htrim hlen
  cases rawCity with
  | nil => exact absurd rfl hraw
  | cons c cs =>
    have hlen' : ¬ (100 < (trimStr (c :: cs)).length) := Nat.not_lt.mpr hlen
    simp [postCityVideo, hadmin, getActiveJobForApiKey, htrim, hlen', jsString, createJob]

/-- C10, witness: with a failing lookup the caller `key1`, who owns the
active `job_a`, still gets a fresh `job_b` created; the trigger for the
same city also creates a duplicate. -/
theorem C10_fail_open_witness :
    getActiveJobForCity (some (str "db down")) (str "paris") JobType.video [pendingJob]
      = Option.none ∧
    postCityVideo (some (str "admin")) (some (str "db down")) Option.none 5 (str "job_b")
        (str "key1") (some (str "paris")) Option.none [pendingJob] =
      { response := .accepted (str "job_b")
        jobs := applyCreateJob 5 (str "job_b") (str "key1") (trimStr (str "paris"))
                  (submitCountry Option.none) JobType.video [pendingJob] } ∧
    triggerVideoGeneration (some (str "db down")) Option.none 5 (str "job_b")
        (str "key1") (str "paris") Option.none [pendingJob] =
      .ok ({ jobId := str "job_b", alreadyProcessing := false },
           applyCreateJob 5 (str "job_b") (str "key1") (str "paris") Option.none
             JobType.video [pendingJob]) :=
  ⟨C10_fail_open.1 (str "db down") (str "paris") JobType.video [pendingJob],
   C10_fail_open.2.1 (some (str "admin")) (str "db down") 5 (str "job_b") (str "key1")
      (str "paris") Option.none [pendingJob]
      (by decide) (by decide) (by decide) (by decide),
   C10_fail_open.2.2 (str "db down") 5 (str "job_b") (str "key1") (str "paris")
      Option.none [pendingJob]⟩

/-- Replacing every matching element by a fixed matching value makes
`find?` return that value, provided something matched. -/
theorem find_map_replace {α : Type} (p : α → Bool) (b : α) (hb : p b = true) :
    ∀ l : List α, l.any p = true →
      (l.map fun a => if p a then b else a).find? p = some b
  | [], h => by cases h
  | a :: l, h => by
    by_cases ha : p a = true
    · simp [ha, hb]
    · have hl : l.any p = true := by simpa [ha] using h
      simp [ha, find_map_replace p b hb l hl]

/-- `find?` skips a prefix in which nothing matches. -/
theorem find_append_of_none {α : Type} (p : α → Bool) :
    ∀ l₁ l₂ : List α, l₁.find? p = Option.none →
      (l₁ ++ l₂).find? p = l₂.find? p
  | [], _, _ => rfl
  | a :: l₁, l₂, h => by
    by_cases ha : p a = true
    · rw [List.find?_cons_of_pos _ ha] at h
      cases h
    · rw [List.find?_cons_of_neg _ ha] at h
      rw [List.cons_append, List.find?_cons_of_neg _ ha]
      exact find_append_of_none p l₁ l₂ h

/-- After `upsertWeatherCache`, looking up the row's city finds exactly
the upserted row. -/
theorem find_upsertWeatherCache (cache : List WeatherCache) (row : WeatherCache) :
    (upsertWeatherCache cache row).find? (fun r => r.city == row.city) = some row := by
  rw [upsertWeatherCache]
  by_cases hany : cache.any (fun r => r.city == row.city) = true
  · rw [if_pos hany]
    exact find_map_replace _ row (by simp) cache hany
  · rw [if_neg hany]
    have hnone : cache.find? (fun r => r.city == row.city) = Option.none := by
      rw [List.find?_eq_none]
      intro x hx
      simp only [Bool.not_eq_true] at hany
      simp [List.any_eq_false.mp hany x hx]
    rw [find_append_of_none _ _ _ hnone]
    simp [List.find?]

/-- C4: a weather read with a fresh cache row returns the cached snapshot
with `cached := true` and never calls the provider; with the row absent
or stale it calls the provider, returns `cached := false`, and upserts
the cache entry of the normalized city with `fetched_at := now`. -/
theorem C4_weather_cache :
    (∀ (provider : Except Str WeatherAPIResponse) (now : Nat)
       (cache : List WeatherCache) (city : Str) (c : WeatherCache),
      cache.find? (fun r => r.city == normalizeCity city) = some c →
      isCacheFresh now c.fetched_at = true →
      getWeatherForCity provider now cache city =
        .ok { weather := weatherFromCacheRow c, cache := cache, providerCalled := false } ∧
      (weatherFromCacheRow c).cached = true) ∧
    (∀ (resp : WeatherAPIResponse) (now : Nat) (cache : List WeatherCache) (city : Str),
      (∀ c, cache.find? (fun r => r.city == normalizeCity city) = some c →
        isCacheFresh now c.fetched_at = false) →
      ∃ r : WeatherFetchResult,
        getWeatherForCity (.ok resp) now cache city = .ok r ∧
        r.weather.cached = false ∧ r.providerCalled = true ∧
        r.cache.find? (fun x => x.city == normalizeCity city) =
          some { city := normalizeCity city
                 weather_category := getWeatherCategory resp.condition_code
                 weather_data :=
                   { condition_code := resp.condition_code
                     condition_text := resp.condition_text
                     temp_c := resp.temp_c
                     temp_f := resp.temp_f
                     humidity := resp.humidity
                     wind_kph := resp.wind_kph
                     is_day := resp.is_day }
                 fetched_at := now }) := by
  constructor
  · intro provider now cache city c hfind hfresh
    refine ⟨?_, rfl⟩
    simp [getWeatherForCity, hfind, hfresh]
  · intro resp now cache city hstale
    obtain ⟨r, h1, h2, h3, h4⟩ :
        ∃ r : WeatherFetchResult,
          fetchAndCacheWeather (.ok resp) now cache (normalizeCity city) = .ok r ∧
          r.weather.cached = false ∧ r.providerCalled = true ∧
          r.cache.find? (fun x => x.city == normalizeCity city) =
            some { city := normalizeCity city
                   weather_category := getWeatherCategory resp.condition_code
                   weather_data :=
                     { condition_code := resp.condition_code
                       condition_text := resp.condition_text
                       temp_c := resp.temp_c
                       temp_f := resp.temp_f
                       humidity := resp.humidity
                       wind_kph := resp.wind_kph
                       is_day := resp.is_day }
                   fetched_at := now } :=
      ⟨_, rfl, rfl, rfl,
        find_upsertWeatherCache cache
          { city := normalizeCity city
            weather_category := getWeatherCategory resp.condition_code
            weather_data :=
              { condition_code := resp.condition_code
                condition_text := resp.condition_text
                temp_c := resp.temp_c
                temp_f := resp.temp_f
                humidity := resp.humidity
                wind_kph := resp.wind_kph
                is_day := resp.is_day }
            fetched_at := now }⟩
    cases hfind : cache.find? (fun r => r.city == normalizeCity city) with
    | none =>
      refine ⟨r, ?_, h2, h3, h4⟩
      simp only [getWeatherForCity, hfind]
      exact h1
    | some c =>
      refine ⟨r, ?_, h2, h3, h4⟩
      have hs := hstale c hfind
      simp only [getWeatherForCity, hfind, hs, Bool.false_eq_true, if_false]
      exact h1

/-- C4, witness: a fresh row for "paris" is served from cache; a stale
row triggers a provider call and a re-stamped cache row. -/
theorem C4_weather_cache_witness :
    (getWeatherForCity (.error (str "down")) 1000 [sampleCacheRow] (str "Paris") =
        .ok { weather := weatherFromCacheRow sampleCacheRow
              cache := [sampleCacheRow]
              providerCalled := false } ∧
      (weatherFromCacheRow sampleCacheRow).cached = true) ∧
    (∃ r : WeatherFetchResult,
      getWeatherForCity (.ok sampleResp) 9999999 [sampleCacheRow] (str "Paris") = .ok r ∧
      r.weather.cached = false ∧ r.providerCalled = true ∧
      r.cache.find? (fun x => x.city == normalizeCity (str "Paris")) =
        some { city := normalizeCity (str "Paris")
               weather_category := getWeatherCategory sampleResp.condition_code
               weather_data :=
                 { condition_code := sampleResp.condition_code
                   condition_text := sampleResp.condition_text
                   temp_c := sampleResp.temp_c
                   temp_f := sampleResp.temp_f
                   humidity := sampleResp.humidity
                   wind_kph := sampleResp.wind_kph
                   is_day := sampleResp.is_day }
               fetched_at := 9999999 }) :=
  ⟨C4_weather_cache.1 (.error (str "down")) 1000 [sampleCacheRow] (str "Paris")
      sampleCacheRow (by decide) (by decide),
   C4_weather_cache.2 sampleResp 9999999 [sampleCacheRow] (str "Paris")
      (by decide)⟩

/-- C8: for a non-admin caller that does not own the polled job, the poll
endpoint's response is the generic `JOB_NOT_FOUND` error and is
identical to the response for a table in which the job does not exist at
all — existence does not leak. -/
theorem C8_ownership_no_leak (adminKey : Option Str) (now : Nat)
    (apiKey jobId : Str) (jobs : List VideoJob)
    (hadmin : isAdminKey adminKey apiKey = false)
    (hown : ∀ j ∈ jobs, j.id = jobId → validateJobOwnership j apiKey = false) :
    pollCityImageJob adminKey now apiKey jobId jobs =
      .errorResp (str "JOB_NOT_FOUND") (jobNotFoundMsg jobId) Option.none Option.none ∧
    pollCityImageJob adminKey now apiKey jobId jobs =
      pollCityImageJob adminKey now apiKey jobId [] := by
  have h1 : pollCityImageJob adminKey now apiKey jobId jobs =
      .errorResp (str "JOB_NOT_FOUND") (jobNotFoundMsg jobId) Option.none Option.none := by
    cases hfind : findJob jobs jobId with
    | none => simp [pollCityImageJob, hfind]
    | some j =>
      have hmem : j ∈ jobs := List.mem_of_find?_eq_some hfind
      have hid : j.id = jobId := by
        have := List.find?_some hfind
        simpa [beq_iff_eq] using this
      simp [pollCityImageJob, hfind, hadmin, hown j hmem hid]
  exact ⟨h1, h1.trans rfl⟩

/-- C8, witness: the caller `key2` polling `key1`'s job gets the same
not-found response as against the empty table. -/
theorem C8_ownership_no_leak_witness :
    pollCityImageJob (some (str "admin")) 7 (str "key2") (str "job_a") [pendingJob] =
      .errorResp (str "JOB_NOT_FOUND") (jobNotFoundMsg (str "job_a"))
        Option.none Option.none ∧
    pollCityImageJob (some (str "admin")) 7 (str "key2") (str "job_a") [pendingJob] =
      pollCityImageJob (some (str "admin")) 7 (str "key2") (str "job_a") [] :=
  C8_ownership_no_leak (some (str "admin")) 7 (str "key2") (str "job_a") [pendingJob]
    (by decide) (by decide)

/-- JavaScript truthiness on a non-empty optional string. -/
theorem jsString_some (u : Str) (hu : u ≠ []) : jsString (some u) = some u := by
  cases u with
  | nil => exact absurd rfl hu
  | cons a as => rfl

/-- C5: when the weather provider fails with a "not found" / "No matching
location" class of message (and the weather cache cannot serve the
location), the pipeline fails the job with a Fatal error whose message
names the invalid location, and the failed job's recorded stage is
`fetching_weather`. -/
theorem C5_fatal_location (env : Env) (w : World) (jobId city : Str)
    (country : Option Str) (j : VideoJob) (m : Str)
    (hjob : findJob w.jobs jobId = some j)
    (hresp : env.weatherResp = .error m)
    (hcache : ∀ c, w.weatherCache.find?
        (fun r => r.city == normalizeCity (stepLocation city country)) = some c →
      isCacheFresh env.now c.fetched_at = false)
    (hmsg : (includesStr m (str "not found")
        || includesStr m (str "No matching location")) = true) :
    (cityVideoWorkflow env w jobId city country).result =
      .error { fatal := true
               message := str "Invalid location: " ++ stepLocation city country } ∧
    (cityVideoWorkflow env w jobId city country).stageTrace =
      [JobStage.fetching_weather] ∧
    includesStr (str "Invalid location: " ++ stepLocation city country)
      (stepLocation city country) = true ∧
    findJob (cityVideoWorkflow env w jobId city country).world.jobs jobId =
      some { j with
             status := JobStatus.failed
             stage := some JobStage.fetching_weather
             error_message := some (str "Invalid location: " ++ stepLocation city country)
             updated_at := env.now } := by
  have hw : getWeatherForCity env.weatherResp env.now w.weatherCache
      (stepLocation city country) = .error m := by
    cases hf : w.weatherCache.find?
        (fun r => r.city == normalizeCity (stepLocation city country)) with
    | none => simp [getWeatherForCity, hf, hresp, fetchAndCacheWeather]
    | some c =>
      simp [getWeatherForCity, hf, hcache c hf, hresp, fetchAndCacheWeather]
  have hstep : fetchWeatherStep env.weatherResp env.now w.weatherCache city country =
      .error { fatal := true
               message := str "Invalid location: " ++ stepLocation city country } := by
    simp [fetchWeatherStep, hw, hmsg]
  refine ⟨?_, ?_, includes_append_right _ _, ?_⟩
  · simp [cityVideoWorkflow, hstep, failOutcome]
  · simp [cityVideoWorkflow, hstep, failOutcome]
  · simp only [cityVideoWorkflow, hstep, failOutcome]
    rw [findJob_applyFailJob, findJob_applyUpdateJobStage, findJob_applyStartJob, hjob]
    rfl

/-- C5, witness: a run for city "xyzzy123" whose provider answers
"No matching location found." fails Fatal at stage `fetching_weather`. -/
theorem C5_fatal_location_witness :
    (cityVideoWorkflow c5Env c5World (str "job_a") (str "xyzzy123") Option.none).result =
      .error { fatal := true
               message := str "Invalid location: "
                 ++ stepLocation (str "xyzzy123") Option.none } ∧
    (cityVideoWorkflow c5Env c5World (str "job_a") (str "xyzzy123") Option.none).stageTrace =
      [JobStage.fetching_weather] ∧
    includesStr (str "Invalid location: " ++ stepLocation (str "xyzzy123") Option.none)
      (stepLocation (str "xyzzy123") Option.none) = true ∧
    findJob (cityVideoWorkflow c5Env c5World (str "job_a") (str "xyzzy123")
        Option.none).world.jobs (str "job_a") =
      some { pendingJob with
             status := JobStatus.failed
             stage := some JobStage.fetching_weather
             error_message := some (str "Invalid location: "
               ++ stepLocation (str "xyzzy123") Option.none)
             updated_at := 60 } :=
  C5_fatal_location c5Env c5World (str "job_a") (str "xyzzy123") Option.none
    pendingJob (str "No matching location found.")
    (by decide) (by decide) (by intro c hc; cases hc) (by decide)

/-- C6: when the media cache row for the resolved (normalized city,
category, time-of-day) key already holds a video URL, the pipeline runs
neither `generating_video` nor `processing_video` (the stage trace stops
at `generating_image`) and completes the job at once with the cached
video URL, the cached image URL and `cached := true`. -/
theorem C6_cached_video_short_circuit (env : Env) (w : World) (jobId city : Str)
    (country : Option Str) (j : VideoJob) (weather : WeatherData)
    (wcache' : List WeatherCache) (entry : CityImage) (u : Str)
    (hjob : findJob w.jobs jobId = some j)
    (hweather : fetchWeatherStep env.weatherResp env.now w.weatherCache city country =
      .ok (weather, wcache'))
    (hentry : getCachedImage w.cityImages city weather.category
        (if weather.isDay then TimeOfDay.day else TimeOfDay.night) = some entry)
    (hvid : entry.video_url = some u) (hu : u ≠ []) :
    (cityVideoWorkflow env w jobId city country).stageTrace =
      [JobStage.fetching_weather, JobStage.generating_image] ∧
    (cityVideoWorkflow env w jobId city country).result =
      .ok { jobId := jobId
            videoUrl := u
            imageUrl := entry.image_url
            weather := weather
            timeOfDay := if weather.isDay then TimeOfDay.day else TimeOfDay.night } ∧
    findJob (cityVideoWorkflow env w jobId city country).world.jobs jobId =
      some { j with
             status := JobStatus.completed
             stage := Option.none
             video_url := some u
             weather_data := some weather
             image_url := some entry.image_url
             cached := true
             updated_at := env.now
             completed_at := some env.now } := by
  have himg : generateImageStep env.imageGenResp city weather.category
      (if weather.isDay then TimeOfDay.day else TimeOfDay.night) w.cityImages =
      .ok ({ imageUrl := entry.image_url
             cached := true
             animationUrl := entry.animation_url
             videoUrl := entry.video_url
             animationStatus := entry.animation_status.getD .none }, w.cityImages) := by
    simp [generateImageStep, getOrGenerateImage, hentry]
  refine ⟨?_, ?_, ?_⟩
  · simp [cityVideoWorkflow, hweather, himg, hvid, jsString_some u hu]
  · simp [cityVideoWorkflow, hweather, himg, hvid, jsString_some u hu]
  · simp only [cityVideoWorkflow, hweather, himg, hvid, jsString_some u hu]
    rw [findJob_applyCompleteJob, findJob_applyUpdateJobStage,
        findJob_applyUpdateJobStage, findJob_applyStartJob, hjob]
    rfl

/-- C6, witness: a rainy-night run for "Paris" against the cached media
row completes immediately from the cache. -/
theorem C6_cached_video_short_circuit_witness :
    (cityVideoWorkflow c6Env c6World (str "job_a") (str "Paris") Option.none).stageTrace =
      [JobStage.fetching_weather, JobStage.generating_image] ∧
    (cityVideoWorkflow c6Env c6World (str "job_a") (str "Paris") Option.none).result =
      .ok { jobId := str "job_a"
            videoUrl := str "v.mp4"
            imageUrl := c6Image.image_url
            weather := c6Weather
            timeOfDay := if c6Weather.isDay then TimeOfDay.day else TimeOfDay.night } ∧
    findJob (cityVideoWorkflow c6Env c6World (str "job_a") (str "Paris")
        Option.none).world.jobs (str "job_a") =
      some { pendingJob with
             status := JobStatus.completed
             stage := Option.none
             video_url := some (str "v.mp4")
             weather_data := some c6Weather
             image_url := some c6Image.image_url
             cached := true
             updated_at := 50
             completed_at := some 50 } :=
  C6_cached_video_short_circuit c6Env c6World (str "job_a") (str "Paris") Option.none
    pendingJob c6Weather [c6CacheRow] c6Image (str "v.mp4")
    (by decide) (by decide) (by decide) (by decide) (by decide)

/-- C9, witness for the amended theorem: the missing-id case at the empty
table and the existing-id case at the concrete pending job. -/
theorem C9_startJob_behavior_witness :
    startJob Option.none 5 (str "job_x") [] = .ok [] ∧
    startJob Option.none 1 (str "job_a") [pendingJob]
      = .ok (applyStartJob 1 (str "job_a") [pendingJob]) ∧
    startJob (some (str "db down")) 1 (str "job_a") [pendingJob]
      = .error (str "Failed to start job: " ++ str "db down") :=
  ⟨C9_startJob_behavior.1 5 (str "job_x") [] (by decide),
   (C9_startJob_behavior.2.1 1 (str "job_a") [pendingJob] pendingJob (by decide)).1,
   C9_startJob_behavior.2.2 1 (str "job_a") [pendingJob] (str "db down")⟩

end CityMood
